import Mathlib

/-!
Verification development for the MyEldom cloud-client library
(`MyEldom.py` of the home-assistant-eldom integration).

The Python source is shallowly embedded: Python values that can appear in
decoded JSON payloads and in `Heater` dataclass fields are an inductive
`PyObj` (where `PyObj.null` plays the role of Python `None`), machine
floats are modelled as rationals, raised Python exceptions are the error
side of `Except`, and each method of the `MyEldom` class becomes a pure
Lean function over an explicit state.  Transport (aiohttp) is modelled by
a trace of per-attempt outcomes handed to the function under test.
-/

namespace Eldom

/-- Naive-datetime result of `datetime.strptime` (no timezone, the source
always truncates to 19 characters before parsing). -/
structure Timestamp where
  year : Nat
  month : Nat
  day : Nat
  hour : Nat
  minute : Nat
  second : Nat
deriving Repr, DecidableEq

/-- Python values reachable in this client: the decoded-JSON domain
(`None`, bool, number, string, list, dict with string keys) plus
`datetime` values produced by `strptime`.  Numbers are modelled as
rationals. `PyObj.null` is Python `None` (JSON `null` decodes to it). -/
inductive PyObj where
  | null
  | bool (b : Bool)
  | num (q : ℚ)
  | str (s : String)
  | arr (elems : List PyObj)
  | obj (fields : List (String × PyObj))
  | time (t : Timestamp)

/-- Python exceptions raised by the code paths modelled here. -/
inductive PyErr where
  | keyError
  | typeError
  | valueError
  | jsonDecodeError
  | attributeError
deriving Repr, DecidableEq

/-- Python truthiness (`if x:`) for the modelled value domain. -/
def PyObj.truthy : PyObj → Bool
  | .null => false
  | .bool b => b
  | .num q => decide (q ≠ 0)
  | .str s => decide (s ≠ "")
  | .arr xs => !xs.isEmpty
  | .obj kvs => !kvs.isEmpty
  | .time _ => true

/-- Dict lookup `d.get(k)`: the stored value, or `None` when the key is
absent (also the behaviour when the stored value is JSON `null`). -/
def pyGetD (kvs : List (String × PyObj)) (k : String) : PyObj :=
  match kvs.lookup k with
  | some v => v
  | none => .null

/-- Subscription `x[k]` with a string key: `KeyError` on a dict miss,
`TypeError` on every non-dict value (string/list subscripts must be
integers or slices; numbers and `None` are not subscriptable). -/
def pyIndex : PyObj → String → Except PyErr PyObj
  | .obj kvs, k =>
    match kvs.lookup k with
    | some v => .ok v
    | none => .error .keyError
  | _, _ => .error .typeError

/-- Membership `k in x` for a string `k`: dict key test, substring test
on strings, element equality on lists; `TypeError` on numbers, booleans
and `None`. -/
def listIsInfixOf (needle : List Char) : List Char → Bool
  | [] => needle.isEmpty
  | c :: rest => (needle.isPrefixOf (c :: rest)) || listIsInfixOf needle rest

/-- Substring test on strings, as Python `needle in hay`. -/
def strContainsSub (hay needle : String) : Bool :=
  listIsInfixOf needle.toList hay.toList

def pyContains : PyObj → String → Except PyErr Bool
  | .obj kvs, k => .ok (kvs.lookup k).isSome
  | .str s, k => .ok (strContainsSub s k)
  | .arr xs, k => .ok (xs.any (fun x => match x with | .str s => s == k | _ => false))
  | _, _ => .error .typeError

/-- Python `==` against a numeric constant, as in
`device.get("deviceType") == ELDOM_DEVICE_TYPE_HEATER`: numbers compare
by value, booleans compare as 0/1, every other type is unequal. -/
def pyEqNum : PyObj → ℚ → Bool
  | .num q, n => decide (q = n)
  | .bool b, n => decide ((if b then (1 : ℚ) else 0) = n)
  | _, _ => false

/-! ### Timestamp parsing (`datetime.strptime(s[:19], "%Y-%m-%dT%H:%M:%S")`)

Modelled for the fixed-width form the server emits: exactly
`dddd-dd-ddTdd:dd:dd` with calendar-valid fields.  (CPython also accepts
some narrower digit runs and leap seconds; no claim depends on those.) -/

def digit2 (a b : Char) : Option Nat :=
  if a.isDigit && b.isDigit then some ((a.toNat - 48) * 10 + (b.toNat - 48)) else none

def digit4 (a b c d : Char) : Option Nat :=
  match digit2 a b, digit2 c d with
  | some hi, some lo => some (hi * 100 + lo)
  | _, _ => none

def isLeapYear (y : Nat) : Bool :=
  (y % 4 == 0 && y % 100 != 0) || y % 400 == 0

def daysInMonth (y m : Nat) : Nat :=
  if m = 2 then (if isLeapYear y then 29 else 28)
  else if m = 4 ∨ m = 6 ∨ m = 9 ∨ m = 11 then 30
  else 31

def parseTimestamp (s : String) : Option Timestamp :=
  match s.toList with
  | [y1, y2, y3, y4, a1, m1, m2, a2, d1, d2, a3, h1, h2, a4, n1, n2, a5, e1, e2] =>
    if a1 = '-' ∧ a2 = '-' ∧ a3 = 'T' ∧ a4 = ':' ∧ a5 = ':' then
      match digit4 y1 y2 y3 y4, digit2 m1 m2, digit2 d1 d2,
            digit2 h1 h2, digit2 n1 n2, digit2 e1 e2 with
      | some y, some mo, some d, some h, some mi, some sec =>
        if 1 ≤ mo ∧ mo ≤ 12 ∧ 1 ≤ d ∧ d ≤ daysInMonth y mo ∧ h ≤ 23 ∧ mi ≤ 59 ∧ sec ≤ 59 then
          some ⟨y, mo, d, h, mi, sec⟩
        else none
      | _, _, _, _, _, _ => none
    else none
  | _ => none

/-- The source idiom `datetime.strptime(v[:19], "%Y-%m-%dT%H:%M:%S")`
applied to a truthy value `v`: slicing then parsing succeeds only on a
string whose 19-character prefix is a valid timestamp; an unparseable
string raises `ValueError`, a non-string raises `TypeError` (either at
the slice or inside `strptime`). -/
def pyStrptime19 : PyObj → Except PyErr Timestamp
  | .str s =>
    match parseTimestamp (s.take 19) with
    | some t => .ok t
    | none => .error .valueError
  | _ => .error .typeError

/-! ### JSON decoding (`json.loads`)

A fuel-indexed recursive-descent parser for the JSON fragment the API
uses (no string escapes, no exponent notation; `null` decodes to
`PyObj.null`, i.e. Python `None`). -/

def skipWs : List Char → List Char
  | c :: rest => if c = ' ' ∨ c = '\t' ∨ c = '\n' ∨ c = '\r' then skipWs rest else c :: rest
  | [] => []

/-- Consume a run of digits, returning accumulated value, count consumed
and the rest. -/
def digitsRun : Nat → Nat → List Char → Nat × Nat × List Char
  | acc, cnt, c :: rest =>
    if c.isDigit then digitsRun (acc * 10 + (c.toNat - 48)) (cnt + 1) rest
    else (acc, cnt, c :: rest)
  | acc, cnt, [] => (acc, cnt, [])

/-- Parse a JSON number (optional minus, integer part, optional fraction). -/
def parseNumber (cs : List Char) : Option (ℚ × List Char) :=
  let signSplit : Bool × List Char :=
    match cs with
    | '-' :: r => (true, r)
    | _ => (false, cs)
  match digitsRun 0 0 signSplit.2 with
  | (_, 0, _) => none
  | (ip, _ + 1, rest) =>
    match rest with
    | '.' :: r2 =>
      match digitsRun 0 0 r2 with
      | (_, 0, _) => none
      | (fp, k + 1, rest2) =>
        let q : ℚ := (ip : ℚ) + (fp : ℚ) / ((10 : ℚ) ^ (k + 1))
        some (if signSplit.1 then -q else q, rest2)
    | _ => some (if signSplit.1 then -(ip : ℚ) else (ip : ℚ), rest)

/-- Consume the body of a JSON string after the opening quote (escape
sequences unsupported: payloads under test contain none). -/
def takeStringBody : List Char → Option (List Char × List Char)
  | '"' :: rest => some ([], rest)
  | '\\' :: _ => none
  | c :: rest =>
    match takeStringBody rest with
    | some (s, r) => some (c :: s, r)
    | none => none
  | [] => none

/-- Parser task: a single value, remaining array items, or remaining
object members (accumulator carried). -/
inductive PTask where
  | value
  | arrItems (acc : List PyObj)
  | objItems (acc : List (String × PyObj))

def parseP : Nat → PTask → List Char → Option (PyObj × List Char)
  | 0, _, _ => none
  | Nat.succ fuel, PTask.value, cs =>
    match skipWs cs with
    | 'n' :: 'u' :: 'l' :: 'l' :: rest => some (.null, rest)
    | 't' :: 'r' :: 'u' :: 'e' :: rest => some (.bool true, rest)
    | 'f' :: 'a' :: 'l' :: 's' :: 'e' :: rest => some (.bool false, rest)
    | '"' :: rest =>
      match takeStringBody rest with
      | some (s, r) => some (.str (String.mk s), r)
      | none => none
    | '[' :: rest =>
      match skipWs rest with
      | ']' :: r2 => some (.arr [], r2)
      | _ => parseP fuel (PTask.arrItems []) rest
    | '\x7b' :: rest =>
      match skipWs rest with
      | '\x7d' :: r2 => some (.obj [], r2)
      | _ => parseP fuel (PTask.objItems []) rest
    | other =>
      match parseNumber other with
      | some (q, r) => some (.num q, r)
      | none => none
  | Nat.succ fuel, PTask.arrItems acc, cs =>
    match parseP fuel PTask.value cs with
    | none => none
    | some (v, rest) =>
      match skipWs rest with
      | ',' :: r2 => parseP fuel (PTask.arrItems (acc ++ [v])) r2
      | ']' :: r2 => some (.arr (acc ++ [v]), r2)
      | _ => none
  | Nat.succ fuel, PTask.objItems acc, cs =>
    match skipWs cs with
    | '"' :: rest =>
      match takeStringBody rest with
      | none => none
      | some (k, r1) =>
        match skipWs r1 with
        | ':' :: r2 =>
          match parseP fuel PTask.value r2 with
          | none => none
          | some (v, r3) =>
            match skipWs r3 with
            | ',' :: r4 => parseP fuel (PTask.objItems (acc ++ [(String.mk k, v)])) r4
            | '\x7d' :: r4 => some (.obj (acc ++ [(String.mk k, v)]), r4)
            | _ => none
        | _ => none
    | _ => none

/-- Decode a JSON document; `none` models `json.JSONDecodeError`
(including trailing garbage). -/
def jsonParse (s : String) : Option PyObj :=
  match parseP (2 * s.length + 4) PTask.value s.toList with
  | some (j, rest) => if (skipWs rest).isEmpty then some j else none
  | none => none

/-- Conversion `float(x)`: numbers pass through, booleans become 0/1,
numeric strings parse (`ValueError` otherwise), everything else —
including `None` — raises `TypeError`. -/
def parseFloatStr (s : String) : Option ℚ :=
  match parseNumber s.toList with
  | some (q, []) => some q
  | _ => none

def pyFloat : PyObj → Except PyErr ℚ
  | .num q => .ok q
  | .bool b => .ok (if b then 1 else 0)
  | .str s =>
    match parseFloatStr s with
    | some q => .ok q
    | none => .error .valueError
  | _ => .error .typeError

/-- Conversion `str(x)`, as applied to `device.get("hwVersion")`.  Only
equality of results matters to the claims; the rendering below matches
CPython on the scalar values the server sends. -/
def pyStr : PyObj → String
  | .null => "None"
  | .bool true => "True"
  | .bool false => "False"
  | .num q => toString q
  | .str s => s
  | .arr _ => "<list>"
  | .obj _ => "<dict>"
  | .time _ => "<datetime>"

/-- Python `json.loads(x)` where `x` is an arbitrary value: only strings
are accepted  (`TypeError` otherwise); a malformed document raises
`json.JSONDecodeError`. -/
def pyJsonLoads : PyObj → Except PyErr PyObj
  | .str s =>
    match jsonParse s with
    | some j => .ok j
    | none => .error .jsonDecodeError
  | _ => .error .typeError

/-! ### The `Heater` dataclass (`EldomDevice` base fields inlined)

Every field of the Python dataclass holds an arbitrary Python value and
defaults to `None`.  `swVersion` is not a declared dataclass field: it is
the dynamically created attribute that `fetch_all_heaters` assigns
instead of the declared `sw_version`. -/
structure Heater where
  hw_version : PyObj := .null
  sw_version : PyObj := .null
  swVersion : PyObj := .null
  id : PyObj := .null
  last_updated : PyObj := .null
  name : PyObj := .null
  real_device_id : PyObj := .null
  available : PyObj := .null
  raw_data : PyObj := .null
  state : PyObj := .null
  power : PyObj := .null
  current_temp : PyObj := .null
  set_temp : PyObj := .null
  pcb_temp : PyObj := .null
  open_window : PyObj := .null
  energy_day : PyObj := .null
  energy_night : PyObj := .null
  energy_total : PyObj := .null

/-! ### Transport helpers `_get_request` / `_post_request`

The network is a trace of per-attempt outcomes, consumed in order.  Each
helper returns the decoded payload (`PyObj.null` standing for Python
`None`, the value returned on transport failure, empty body, undecodable
body or a body that is literally `null`) together with the log of HTTP
requests it issued. -/

inductive Outcome where
  | timeout
  | clientError
  | response (body : String)

inductive Method where
  | get
  | post
deriving Repr, DecidableEq

structure Req where
  method : Method
  command : String
  payload : PyObj
  retry : Nat

/-- Decode a response body the way both helpers do: empty body and
`JSONDecodeError` yield `None`; a decoded JSON `null` is Python `None`
as well. -/
def decodeBody (body : String) : PyObj :=
  if body = "" then .null
  else
    match jsonParse body with
    | some j => j
    | none => .null

def _get_request (command : String) (payload : PyObj) (retry : Nat) :
    List Outcome → PyObj × List Req
  | [] => (.null, [⟨.get, command, payload, retry⟩])
  | .timeout :: rest =>
    if retry < 1 then (.null, [⟨.get, command, payload, retry⟩])
    else
      let r := _get_request command payload (retry - 1) rest
      (r.1, ⟨.get, command, payload, retry⟩ :: r.2)
  | .clientError :: _ => (.null, [⟨.get, command, payload, retry⟩])
  | .response body :: _ => (decodeBody body, [⟨.get, command, payload, retry⟩])

/-- The POST helper.  Note the source defect preserved here: a timed-out
POST with remaining budget retries through `_get_request`. -/
def _post_request (command : String) (payload : PyObj) (retry : Nat) :
    List Outcome → PyObj × List Req
  | [] => (.null, [⟨.post, command, payload, retry⟩])
  | .timeout :: rest =>
    if retry < 1 then (.null, [⟨.post, command, payload, retry⟩])
    else
      let r := _get_request command payload (retry - 1) rest
      (r.1, ⟨.post, command, payload, retry⟩ :: r.2)
  | .clientError :: _ => (.null, [⟨.post, command, payload, retry⟩])
  | .response body :: _ => (decodeBody body, [⟨.post, command, payload, retry⟩])

/-! ### Login (`_do_login` / `connect`) -/

/-- Outcome of one login POST: `transportErr` covers both
`asyncio.TimeoutError` and `aiohttp.ClientError` (the source catches the
two in a single except clause), otherwise an HTTP status arrives. -/
inductive LoginOutcome where
  | transportErr
  | response (status : Nat)

/-- The body of `_do_login`, returning (success, number of attempts
made).  Success is exactly a 302 response; a transport error is retried
while budget remains; any non-302 status fails with no retry. -/
def _do_login (retry : Nat) : List LoginOutcome → Bool × Nat
  | [] => (false, 0)
  | .transportErr :: rest =>
    if retry < 1 then (false, 1)
    else
      let r := _do_login (retry - 1) rest
      (r.1, r.2 + 1)
  | .response s :: _ => (decide (s = 302), 1)

/-- The method `connect` forwards its retry budget to `_do_login` and
returns its boolean result. -/
def connect (retry : Nat) (trace : List LoginOutcome) : Bool :=
  (_do_login retry trace).1

/-! ### Per-device refresh (`fetch_heater_data`)

The argument `heater_data` is the value `_get_request` returned for
`/api/panelconvector/{heater.id}` (`PyObj.null` = Python `None`).  The
function mutates the heater field by field in source order; a raised
exception carries the partially updated heater on the error side.  The
assignment `heater.raw_data = json.dumps(heater_status_json)` is
modelled by storing the decoded status object itself: no claim inspects
the serialized text, only whether the field changed. -/
def fetch_heater_data (heater : Heater) (heater_data : PyObj) :
    Except (PyErr × Heater) (Bool × Heater) :=
  match heater_data with
  | .null => .ok (false, { heater with available := .bool false })
  | hd =>
    match pyIndex hd "objectJson" with
    | .error e => .error (e, heater)
    | .ok objJsonVal =>
      match pyJsonLoads objJsonVal with
      | .error e => .error (e, heater)
      | .ok hsj =>
        let h1 := { heater with raw_data := hsj }
        match hsj with
        | .obj kvs =>
          let h2 := { h1 with
            state := pyGetD kvs "State"
            power := pyGetD kvs "Power"
            current_temp := pyGetD kvs "AmbientTemp" }
          let rawStr := match objJsonVal with | .str s => s | _ => ""
          let tempVal :=
            if strContainsSub rawStr "TimerSTempA" then pyGetD kvs "TimerSTempA"
            else pyGetD kvs "SetTemp"
          match pyFloat tempVal with
          | .error e => .error (e, h2)
          | .ok st =>
            let h3 := { h2 with set_temp := .num st }
            match pyFloat (pyGetD kvs "PCBTemp") with
            | .error e => .error (e, h3)
            | .ok pcb =>
              let h4 := { h3 with pcb_temp := .num pcb, open_window := pyGetD kvs "OpenWindow" }
              match pyFloat (pyGetD kvs "EnergyD") with
              | .error e => .error (e, h4)
              | .ok ed =>
                let h5 := { h4 with energy_day := .num ed }
                match pyFloat (pyGetD kvs "EnergyN") with
                | .error e => .error (e, h5)
                | .ok en =>
                  let h6 := { h5 with energy_night := .num en, energy_total := .num (ed + en) }
                  if (pyGetD kvs "LastRefreshDate").truthy then
                    match pyStrptime19 (pyGetD kvs "LastRefreshDate") with
                    | .error e => .error (e, h6)
                    | .ok t => .ok (true, { h6 with last_updated := .time t, available := .bool true })
                  else
                    .ok (true, { h6 with available := .bool false })
        | _ => .error (.attributeError, h1)

/-! ### Command operations (`set_temperature` / `set_state`)

The argument `resp` is the value `_post_request` returned.  The guard is
the source's `if resp and "status" in resp and resp["status"] is True`. -/

def set_temperature (heater : Heater) (temperature : ℚ) (resp : PyObj) :
    Except (PyErr × Heater) (Bool × Heater) :=
  if resp.truthy then
    match pyContains resp "status" with
    | .error e => .error (e, heater)
    | .ok false => .ok (false, heater)
    | .ok true =>
      match pyIndex resp "status" with
      | .error e => .error (e, heater)
      | .ok (.bool true) => .ok (true, { heater with set_temp := .num temperature })
      | .ok _ => .ok (false, heater)
  else .ok (false, heater)

/-- Unlike `set_temperature`, the success branch of `set_state` performs
no assignment to the heater at all. -/
def set_state (heater : Heater) (_state : ℚ) (resp : PyObj) :
    Except (PyErr × Heater) (Bool × Heater) :=
  if resp.truthy then
    match pyContains resp "status" with
    | .error e => .error (e, heater)
    | .ok false => .ok (false, heater)
    | .ok true =>
      match pyIndex resp "status" with
      | .error e => .error (e, heater)
      | .ok (.bool true) => .ok (true, heater)
      | .ok _ => .ok (false, heater)
  else .ok (false, heater)

/-! ### Registry and discovery (`fetch_all_heaters`)

`self.heaters` is a dict keyed by the payload's `realDeviceId` value;
it is modelled as an insertion-ordered association list.  Keys coming
from decoded JSON are hashable scalars, compared with Python `==`
(booleans equal their 0/1 numeric value; unhashable list/dict keys
cannot occur in a Python dict). -/

def pyKeyEq : PyObj → PyObj → Bool
  | .null, .null => true
  | .bool a, .bool b => a == b
  | .num a, .num b => decide (a = b)
  | .bool a, .num b => decide ((if a then (1 : ℚ) else 0) = b)
  | .num a, .bool b => decide (a = (if b then (1 : ℚ) else 0))
  | .str a, .str b => a == b
  | .time a, .time b => a == b
  | _, _ => false

def regGet : List (PyObj × Heater) → PyObj → Option Heater
  | [], _ => none
  | (k, h) :: rest, i => if pyKeyEq k i then some h else regGet rest i

/-- Dict store `self.heaters[_id] = heater`: replace in place, else
append (insertion order preserved). -/
def regSet : List (PyObj × Heater) → PyObj → Heater → List (PyObj × Heater)
  | [], i, h => [(i, h)]
  | (k, h0) :: rest, i, h => if pyKeyEq k i then (k, h) :: rest else (k, h0) :: regSet rest i h

/-- Process one entry of the device list (the body of the discovery
loop).  A failing `strptime` on `lastDataRefreshDate` propagates before
the registry store, leaving the registry unchanged. -/
def discoverDevice (reg : List (PyObj × Heater)) (device : PyObj) :
    Except PyErr (List (PyObj × Heater)) :=
  match device with
  | .obj kvs =>
    if pyEqNum (pyGetD kvs "deviceType") 4 then
      let i := pyGetD kvs "realDeviceId"
      let h0 := (regGet reg i).getD {}
      let h1 := { h0 with hw_version := .str (pyStr (pyGetD kvs "hwVersion")), id := pyGetD kvs "id" }
      let finish := fun (h : Heater) =>
        regSet reg i { h with
          name := pyGetD kvs "name"
          real_device_id := i
          swVersion := pyGetD kvs "swVersion" }
      if (pyGetD kvs "lastDataRefreshDate").truthy then
        match pyStrptime19 (pyGetD kvs "lastDataRefreshDate") with
        | .error e => .error e
        | .ok t => .ok (finish { h1 with last_updated := .time t, available := .bool true })
      else
        .ok (finish { h1 with available := .bool false })
    else .ok reg
  | _ => .error .attributeError

/-- Fold the discovery loop over the device-list entries; an exception
carries the registry populated so far (the in-place mutations already
performed on `self.heaters`). -/
def discoverFold : List (PyObj × Heater) → List PyObj →
    Except (PyErr × List (PyObj × Heater)) (List (PyObj × Heater))
  | reg, [] => .ok reg
  | reg, d :: rest =>
    match discoverDevice reg d with
    | .error e => .error (e, reg)
    | .ok reg2 => discoverFold reg2 rest

/-- The heater state after one `fetch_heater_data` task ran to
completion or died on an exception (its in-place mutations persist
either way). -/
def heaterAfterFetch (h : Heater) (rsp : PyObj) : Heater :=
  match fetch_heater_data h rsp with
  | .ok (_, h2) => h2
  | .error (_, h2) => h2

/-- The refresh fan-out: one task per registry entry, each touching only
its own heater, all run to completion by `asyncio.gather` (tasks are not
cancelled when a sibling raises).  `resp` maps a heater's `id` field to
the payload its `/api/panelconvector/{id}` request produced. -/
def refreshAll (reg : List (PyObj × Heater)) (resp : PyObj → PyObj) :
    List (PyObj × Heater) :=
  reg.map (fun kh => (kh.1, heaterAfterFetch kh.2 (resp kh.2.id)))

/-- First exception raised among the gathered refresh tasks (the one
`asyncio.gather` re-raises), if any. -/
def firstRefreshErr : List (PyObj × Heater) → (PyObj → PyObj) → Option PyErr
  | [], _ => none
  | (_, h) :: rest, resp =>
    match fetch_heater_data h (resp h.id) with
    | .error (e, _) => some e
    | .ok _ => firstRefreshErr rest resp

structure FetchAllOut where
  registry : List (PyObj × Heater)
  discoveryCalls : Nat
  raised : Option PyErr

/-- Iterating the decoded device list: lists iterate their elements,
dicts iterate their keys (as strings), strings iterate their characters;
scalars are not iterable. -/
def deviceIter : PyObj → Option (List PyObj)
  | .arr ds => some ds
  | .obj kvs => some (kvs.map (fun kv => .str kv.1))
  | .str s => some (s.toList.map (fun c => .str (String.mk [c])))
  | _ => none

/-- The method `fetch_all_heaters`: discovery (one `get_device_list`
request populating the registry) runs only when the registry is empty;
then every known heater is refreshed.  `deviceList` is the payload the
discovery GET would return, `resp` maps heater ids to status payloads. -/
def fetch_all_heaters (heaters : List (PyObj × Heater)) (deviceList : PyObj)
    (resp : PyObj → PyObj) : FetchAllOut :=
  if heaters.isEmpty then
    match deviceList with
    | .null => { registry := [], discoveryCalls := 1, raised := none }
    | dl =>
      match deviceIter dl with
      | none => { registry := [], discoveryCalls := 1, raised := some .typeError }
      | some ds =>
        match discoverFold [] ds with
        | .error (e, reg) => { registry := reg, discoveryCalls := 1, raised := some e }
        | .ok reg =>
          { registry := refreshAll reg resp
            discoveryCalls := 1
            raised := firstRefreshErr reg resp }
  else
    { registry := refreshAll heaters resp
      discoveryCalls := 0
      raised := firstRefreshErr heaters resp }

/-! ### Derived characterizations used to state the claims -/

/-- The decoded status dictionary a response yields, when the envelope
has a string `objectJson` field whose content decodes to a JSON object
(the decode chain of `fetch_heater_data`). -/
def decodedStatus (rsp : PyObj) : Option (List (String × PyObj)) :=
  match rsp with
  | .null => none
  | hd =>
    match pyIndex hd "objectJson" with
    | .ok v =>
      match pyJsonLoads v with
      | .ok (.obj kvs) => some kvs
      | _ => none
    | .error _ => none

/-- Whether the decoded status payload carries a truthy
`LastRefreshDate` whose 19-character prefix parses as a timestamp. -/
def lastRefreshOk (rsp : PyObj) : Bool :=
  match decodedStatus rsp with
  | some kvs =>
    (pyGetD kvs "LastRefreshDate").truthy &&
      (match pyStrptime19 (pyGetD kvs "LastRefreshDate") with
       | .ok _ => true
       | .error _ => false)
  | none => false


/-! ### Concrete payloads and heater records used by the witnesses -/

/-- A well-formed status envelope: every field decodes, the timestamp
parses. -/
def okPayload : PyObj :=
  .obj [("objectJson", .str "\x7b\"SetTemp\": 21.5, \"PCBTemp\": 34.0, \"EnergyD\": 58.0, \"EnergyN\": 5.0, \"LastRefreshDate\": \"2019-10-13T18:00:06\"\x7d")]

/-- The heater state a default-initialized heater reaches after a
successful refresh from `okPayload`. -/
def okHeater : Heater :=
  { raw_data := .obj [("SetTemp", .num (43/2)), ("PCBTemp", .num 34), ("EnergyD", .num 58),
      ("EnergyN", .num 5), ("LastRefreshDate", .str "2019-10-13T18:00:06")]
    set_temp := .num (43/2)
    pcb_temp := .num 34
    energy_day := .num 58
    energy_night := .num 5
    energy_total := .num 63
    last_updated := .time ⟨2019, 10, 13, 18, 0, 6⟩
    available := .bool true }

/-- A status envelope whose fields all decode but whose
`LastRefreshDate` is truthy yet unparseable. -/
def badDatePayload : PyObj :=
  .obj [("objectJson", .str "\x7b\"SetTemp\": 21.5, \"PCBTemp\": 34.0, \"EnergyD\": 58.0, \"EnergyN\": 5.0, \"LastRefreshDate\": \"garbage-not-a-date!\"\x7d")]

/-- The partially updated heater left behind when `strptime` raises on
`badDatePayload`, starting from a heater that was available. -/
def badDateHeater : Heater :=
  { available := .bool true
    raw_data := .obj [("SetTemp", .num (43/2)), ("PCBTemp", .num 34), ("EnergyD", .num 58),
      ("EnergyN", .num 5), ("LastRefreshDate", .str "garbage-not-a-date!")]
    set_temp := .num (43/2)
    pcb_temp := .num 34
    energy_day := .num 58
    energy_night := .num 5
    energy_total := .num 63 }

/-- A three-heater registry whose middle device will fail its fetch. -/
def c4reg : List (PyObj × Heater) :=
  [(.str "A", { id := .num 1 }), (.str "B", { id := .num 2 }), (.str "C", { id := .num 3 })]

/-- Responses for `c4reg`: devices 1 and 3 succeed, device 2 gets no
payload. -/
def c4resp : PyObj → PyObj := fun i =>
  if pyKeyEq i (.num 1) then okPayload
  else if pyKeyEq i (.num 3) then okPayload
  else .null

/-- A raw device-list entry of heater type without a refresh date. -/
def c10device : PyObj :=
  .obj [("deviceType", .num 4), ("realDeviceId", .str "AA"), ("id", .num 7),
    ("name", .str "Room"), ("hwVersion", .str "14"), ("swVersion", .num 25)]

/-- The registry record discovery builds from `c10device`: the declared
`sw_version` field is left at `None` while the dynamically created
`swVersion` attribute receives the payload value. -/
def c10heater : Heater :=
  { hw_version := .str "14"
    id := .num 7
    available := .bool false
    name := .str "Room"
    real_device_id := .str "AA"
    swVersion := .num 25 }

/-! ## Inversion and frame lemmas for `fetch_heater_data` -/

/-- Inversion of a refresh that returned `True`: the decode chain
succeeded and the heater is exactly the source-order update of the
input. -/
theorem fetch_success_inv (h h' : Heater) (rsp : PyObj)
    (hs : fetch_heater_data h rsp = .ok (true, h')) :
    ∃ rawS kvs st pcb ed en,
      pyIndex rsp "objectJson" = .ok (.str rawS) ∧
      pyJsonLoads (.str rawS) = .ok (.obj kvs) ∧
      decodedStatus rsp = some kvs ∧
      pyFloat (if strContainsSub rawS "TimerSTempA" then pyGetD kvs "TimerSTempA"
               else pyGetD kvs "SetTemp") = .ok st ∧
      pyFloat (pyGetD kvs "PCBTemp") = .ok pcb ∧
      pyFloat (pyGetD kvs "EnergyD") = .ok ed ∧
      pyFloat (pyGetD kvs "EnergyN") = .ok en ∧
      ((∃ t, (pyGetD kvs "LastRefreshDate").truthy = true ∧
             pyStrptime19 (pyGetD kvs "LastRefreshDate") = .ok t ∧
             h' = { h with
                    raw_data := .obj kvs
                    state := pyGetD kvs "State"
                    power := pyGetD kvs "Power"
                    current_temp := pyGetD kvs "AmbientTemp"
                    set_temp := .num st
                    pcb_temp := .num pcb
                    open_window := pyGetD kvs "OpenWindow"
                    energy_day := .num ed
                    energy_night := .num en
                    energy_total := .num (ed + en)
                    last_updated := .time t
                    available := .bool true }) ∨
       ((pyGetD kvs "LastRefreshDate").truthy = false ∧
        h' = { h with
               raw_data := .obj kvs
               state := pyGetD kvs "State"
               power := pyGetD kvs "Power"
               current_temp := pyGetD kvs "AmbientTemp"
               set_temp := .num st
               pcb_temp := .num pcb
               open_window := pyGetD kvs "OpenWindow"
               energy_day := .num ed
               energy_night := .num en
               energy_total := .num (ed + en)
               available := .bool false })) := by
  unfold fetch_heater_data at hs
  split at hs
  · simp at hs
  · rename_i hd hne
    cases hIdx : pyIndex rsp "objectJson" with
    | error e => simp [hIdx] at hs
    | ok objJsonVal =>
      simp only [hIdx] at hs
      cases hLoads : pyJsonLoads objJsonVal with
      | error e => simp [hLoads] at hs
      | ok hsj =>
        simp only [hLoads] at hs
        cases hsj with
        | obj kvs =>
          cases objJsonVal with
          | str rawS =>
            refine ⟨rawS, kvs, ?_⟩
            cases hSt : pyFloat (if strContainsSub rawS "TimerSTempA" then pyGetD kvs "TimerSTempA"
                else pyGetD kvs "SetTemp") with
            | error e => simp [hSt] at hs
            | ok st =>
              simp only [hSt] at hs
              cases hPcb : pyFloat (pyGetD kvs "PCBTemp") with
              | error e => simp [hPcb] at hs
              | ok pcb =>
                simp only [hPcb] at hs
                cases hEd : pyFloat (pyGetD kvs "EnergyD") with
                | error e => simp [hEd] at hs
                | ok ed =>
                  simp only [hEd] at hs
                  cases hEn : pyFloat (pyGetD kvs "EnergyN") with
                  | error e => simp [hEn] at hs
                  | ok en =>
                    simp only [hEn] at hs
                    have hDS : decodedStatus rsp = some kvs := by
                      unfold decodedStatus
                      split
                      · exact absurd rfl hne
                      · simp [hIdx, hLoads]
                    cases hTru : (pyGetD kvs "LastRefreshDate").truthy with
                    | false =>
                      simp only [hTru, Bool.false_eq_true, if_false] at hs
                      simp only [Except.ok.injEq, Prod.mk.injEq, true_and] at hs
                      subst hs
                      exact ⟨st, pcb, ed, en, rfl, hLoads, hDS, rfl, rfl, rfl, rfl,
                             Or.inr ⟨rfl, rfl⟩⟩
                    | true =>
                      simp only [hTru, if_true] at hs
                      cases hT : pyStrptime19 (pyGetD kvs "LastRefreshDate") with
                      | error e => simp [hT] at hs
                      | ok t =>
                        simp only [hT] at hs
                        simp only [Except.ok.injEq, Prod.mk.injEq, true_and] at hs
                        subst hs
                        exact ⟨st, pcb, ed, en, rfl, hLoads, hDS, rfl, rfl, rfl, rfl,
                               Or.inl ⟨t, rfl, rfl, rfl⟩⟩
          | null => simp [pyJsonLoads] at hLoads
          | bool b => simp [pyJsonLoads] at hLoads
          | num q => simp [pyJsonLoads] at hLoads
          | arr xs => simp [pyJsonLoads] at hLoads
          | obj kvs2 => simp [pyJsonLoads] at hLoads
          | time t => simp [pyJsonLoads] at hLoads
        | null => simp at hs
        | bool b => simp at hs
        | num q => simp at hs
        | str s => simp at hs
        | arr xs => simp at hs
        | time t => simp at hs

/-- Frame lemma for a refresh that raised: identity fields, availability
and the last-updated timestamp are exactly as before the call. -/
theorem fetch_error_frame (h h' : Heater) (rsp : PyObj) (e : PyErr)
    (hs : fetch_heater_data h rsp = .error (e, h')) :
    h'.hw_version = h.hw_version ∧ h'.sw_version = h.sw_version ∧
    h'.swVersion = h.swVersion ∧ h'.id = h.id ∧ h'.last_updated = h.last_updated ∧
    h'.name = h.name ∧ h'.real_device_id = h.real_device_id ∧
    h'.available = h.available := by
  unfold fetch_heater_data at hs
  split at hs
  · simp at hs
  · rename_i hd hne
    cases hIdx : pyIndex rsp "objectJson" with
    | error e2 =>
      simp only [hIdx, Except.error.injEq, Prod.mk.injEq] at hs
      obtain ⟨he, hh⟩ := hs
      subst hh
      simp
    | ok objJsonVal =>
      simp only [hIdx] at hs
      cases hLoads : pyJsonLoads objJsonVal with
      | error e2 =>
        simp only [hLoads, Except.error.injEq, Prod.mk.injEq] at hs
        obtain ⟨he, hh⟩ := hs
        subst hh
        simp
      | ok hsj =>
        simp only [hLoads] at hs
        cases hsj with
        | obj kvs =>
          cases objJsonVal with
          | str rawS =>
            cases hSt : pyFloat (if strContainsSub rawS "TimerSTempA" then pyGetD kvs "TimerSTempA"
                else pyGetD kvs "SetTemp") with
            | error e2 =>
              simp only [hSt, Except.error.injEq, Prod.mk.injEq] at hs
              obtain ⟨he, hh⟩ := hs
              subst hh
              simp
            | ok st =>
              simp only [hSt] at hs
              cases hPcb : pyFloat (pyGetD kvs "PCBTemp") with
              | error e2 =>
                simp only [hPcb, Except.error.injEq, Prod.mk.injEq] at hs
                obtain ⟨he, hh⟩ := hs
                subst hh
                simp
              | ok pcb =>
                simp only [hPcb] at hs
                cases hEd : pyFloat (pyGetD kvs "EnergyD") with
                | error e2 =>
                  simp only [hEd, Except.error.injEq, Prod.mk.injEq] at hs
                  obtain ⟨he, hh⟩ := hs
                  subst hh
                  simp
                | ok ed =>
                  simp only [hEd] at hs
                  cases hEn : pyFloat (pyGetD kvs "EnergyN") with
                  | error e2 =>
                    simp only [hEn, Except.error.injEq, Prod.mk.injEq] at hs
                    obtain ⟨he, hh⟩ := hs
                    subst hh
                    simp
                  | ok en =>
                    simp only [hEn] at hs
                    cases hTru : (pyGetD kvs "LastRefreshDate").truthy with
                    | false => simp [hTru] at hs
                    | true =>
                      simp only [hTru, if_true] at hs
                      cases hT : pyStrptime19 (pyGetD kvs "LastRefreshDate") with
                      | error e2 =>
                        simp only [hT, Except.error.injEq, Prod.mk.injEq] at hs
                        obtain ⟨he, hh⟩ := hs
                        subst hh
                        simp
                      | ok t => simp [hT] at hs
          | null => simp [pyJsonLoads] at hLoads
          | bool b => simp [pyJsonLoads] at hLoads
          | num q => simp [pyJsonLoads] at hLoads
          | arr xs => simp [pyJsonLoads] at hLoads
          | obj kvs2 => simp [pyJsonLoads] at hLoads
          | time t => simp [pyJsonLoads] at hLoads
        | null =>
          simp only [Except.error.injEq, Prod.mk.injEq] at hs
          obtain ⟨he, hh⟩ := hs
          subst hh
          simp
        | bool b =>
          simp only [Except.error.injEq, Prod.mk.injEq] at hs
          obtain ⟨he, hh⟩ := hs
          subst hh
          simp
        | num q =>
          simp only [Except.error.injEq, Prod.mk.injEq] at hs
          obtain ⟨he, hh⟩ := hs
          subst hh
          simp
        | str s2 =>
          simp only [Except.error.injEq, Prod.mk.injEq] at hs
          obtain ⟨he, hh⟩ := hs
          subst hh
          simp
        | arr xs =>
          simp only [Except.error.injEq, Prod.mk.injEq] at hs
          obtain ⟨he, hh⟩ := hs
          subst hh
          simp
        | time t =>
          simp only [Except.error.injEq, Prod.mk.injEq] at hs
          obtain ⟨he, hh⟩ := hs
          subst hh
          simp

/-- Inversion of a refresh that returned `False`: this happens only when
the transport produced no payload, and then the only mutation is
`available = False`. -/
theorem fetch_false_inv (h h' : Heater) (rsp : PyObj)
    (hs : fetch_heater_data h rsp = .ok (false, h')) :
    rsp = .null ∧ h' = { h with available := .bool false } := by
  unfold fetch_heater_data at hs
  split at hs
  · simp only [Except.ok.injEq, Prod.mk.injEq, true_and] at hs
    exact ⟨rfl, hs.symm⟩
  · rename_i hd hne
    exfalso
    cases hIdx : pyIndex rsp "objectJson" with
    | error e2 => simp [hIdx] at hs
    | ok objJsonVal =>
      simp only [hIdx] at hs
      cases hLoads : pyJsonLoads objJsonVal with
      | error e2 => simp [hLoads] at hs
      | ok hsj =>
        simp only [hLoads] at hs
        cases hsj with
        | obj kvs =>
          cases objJsonVal with
          | str rawS =>
            cases hSt : pyFloat (if strContainsSub rawS "TimerSTempA" then pyGetD kvs "TimerSTempA"
                else pyGetD kvs "SetTemp") with
            | error e2 => simp [hSt] at hs
            | ok st =>
              simp only [hSt] at hs
              cases hPcb : pyFloat (pyGetD kvs "PCBTemp") with
              | error e2 => simp [hPcb] at hs
              | ok pcb =>
                simp only [hPcb] at hs
                cases hEd : pyFloat (pyGetD kvs "EnergyD") with
                | error e2 => simp [hEd] at hs
                | ok ed =>
                  simp only [hEd] at hs
                  cases hEn : pyFloat (pyGetD kvs "EnergyN") with
                  | error e2 => simp [hEn] at hs
                  | ok en =>
                    simp only [hEn] at hs
                    cases hTru : (pyGetD kvs "LastRefreshDate").truthy with
                    | false => simp [hTru] at hs
                    | true =>
                      simp only [hTru, if_true] at hs
                      cases hT : pyStrptime19 (pyGetD kvs "LastRefreshDate") with
                      | error e2 => simp [hT] at hs
                      | ok t => simp [hT] at hs
          | null => simp [pyJsonLoads] at hLoads
          | bool b => simp [pyJsonLoads] at hLoads
          | num q => simp [pyJsonLoads] at hLoads
          | arr xs => simp [pyJsonLoads] at hLoads
          | obj kvs2 => simp [pyJsonLoads] at hLoads
          | time t => simp [pyJsonLoads] at hLoads
        | null => simp at hs
        | bool b => simp at hs
        | num q => simp at hs
        | str s2 => simp at hs
        | arr xs => simp at hs
        | time t => simp at hs

/-! ## Helper lemmas -/

/-- Login succeeds exactly when, within the budget, a run of transport
errors is followed by a 302 response. -/
theorem doLogin_true_iff (trace : List LoginOutcome) : ∀ r : Nat,
    ((_do_login r trace).1 = true ↔
      ∃ k, k ≤ r ∧ (∀ i, i < k → trace.get? i = some .transportErr) ∧
        trace.get? k = some (.response 302)) := by
  induction trace with
  | nil =>
    intro r
    simp [_do_login]
  | cons a rest ih =>
    intro r
    cases a with
    | transportErr =>
      by_cases hr : r < 1
      · have hr0 : r = 0 := by omega
        subst hr0
        simp only [_do_login, if_pos hr]
        constructor
        · intro hfalse
          simp at hfalse
        · rintro ⟨k, hk, hall, hget⟩
          have hk0 : k = 0 := by omega
          subst hk0
          simp at hget
      · simp only [_do_login, if_neg hr]
        rw [show ((_do_login (r - 1) rest).1, (_do_login (r - 1) rest).2 + 1).1
              = (_do_login (r - 1) rest).1 from rfl]
        rw [ih (r - 1)]
        constructor
        · rintro ⟨k, hk, hall, hget⟩
          refine ⟨k + 1, by omega, ?_, by simpa using hget⟩
          intro i hi
          cases i with
          | zero => rfl
          | succ j => simpa using hall j (by omega)
        · rintro ⟨k, hk, hall, hget⟩
          cases k with
          | zero => simp at hget
          | succ j =>
            refine ⟨j, by omega, ?_, by simpa using hget⟩
            intro i hi
            simpa using hall (i + 1) (by omega)
    | response s =>
      simp only [_do_login]
      constructor
      · intro hs
        have : s = 302 := by simpa using hs
        subst this
        exact ⟨0, Nat.zero_le r, by intro i hi; omega, by simp⟩
      · rintro ⟨k, hk, hall, hget⟩
        cases k with
        | zero =>
          simp at hget
          simp [hget]
        | succ j =>
          have := hall 0 (by omega)
          simp at this

/-- Every request `_get_request` logs is a GET carrying the caller's
command and payload; the first carries the caller's budget. -/
theorem getRequest_log (cmd : String) (p : PyObj) : ∀ (trace : List Outcome) (r : Nat),
    ((_get_request cmd p r trace).2.head? = some ⟨.get, cmd, p, r⟩) ∧
    (∀ req ∈ (_get_request cmd p r trace).2,
      req.method = .get ∧ req.command = cmd ∧ req.payload = p) := by
  intro trace
  induction trace with
  | nil =>
    intro r
    refine ⟨rfl, ?_⟩
    intro req hreq
    simp [_get_request] at hreq
    simp [hreq]
  | cons a rest ih =>
    intro r
    cases a with
    | timeout =>
      by_cases hr : r < 1
      · have h0 : r = 0 := by omega
        subst h0
        refine ⟨by simp [_get_request], ?_⟩
        intro req hreq
        simp [_get_request] at hreq
        simp [hreq]
      · have h0 : ¬ r = 0 := by omega
        refine ⟨by simp [_get_request, h0], ?_⟩
        intro req hreq
        simp [_get_request, h0] at hreq
        rcases hreq with rfl | hreq
        · exact ⟨rfl, rfl, rfl⟩
        · exact (ih (r - 1)).2 req hreq
    | clientError =>
      refine ⟨rfl, ?_⟩
      intro req hreq
      simp [_get_request] at hreq
      simp [hreq]
    | response body =>
      refine ⟨rfl, ?_⟩
      intro req hreq
      simp [_get_request] at hreq
      simp [hreq]

/-- Subscription succeeds only on a dict holding the key. -/
theorem pyIndex_ok_inv (x : PyObj) (k : String) (v : PyObj)
    (hx : pyIndex x k = .ok v) : ∃ kvs, x = .obj kvs ∧ kvs.lookup k = some v := by
  cases x with
  | obj kvs =>
    refine ⟨kvs, rfl, ?_⟩
    unfold pyIndex at hx
    cases hkv : kvs.lookup k with
    | none => simp [hkv] at hx
    | some w => simp [hkv] at hx; simp [hx]
  | null => simp [pyIndex] at hx
  | bool b => simp [pyIndex] at hx
  | num q => simp [pyIndex] at hx
  | str s => simp [pyIndex] at hx
  | arr xs => simp [pyIndex] at hx
  | time t => simp [pyIndex] at hx

/-- A registry lookup only returns heaters stored in the registry. -/
theorem regGet_mem (i : PyObj) (h : Heater) : ∀ (reg : List (PyObj × Heater)),
    regGet reg i = some h → ∃ k, (k, h) ∈ reg := by
  intro reg
  induction reg with
  | nil => intro hg; simp [regGet] at hg
  | cons a rest ih =>
    intro hg
    obtain ⟨k0, h0⟩ := a
    unfold regGet at hg
    by_cases hk : pyKeyEq k0 i = true
    · rw [if_pos hk] at hg
      obtain rfl : h0 = h := by simpa using hg
      exact ⟨k0, List.mem_cons_self _ _⟩
    · rw [if_neg hk] at hg
      obtain ⟨k, hm⟩ := ih hg
      exact ⟨k, List.mem_cons_of_mem _ hm⟩

/-- A registry store only adds the new heater; every other entry was
already present. -/
theorem regSet_mem (i : PyObj) (hNew : Heater) (kh : PyObj × Heater) :
    ∀ (reg : List (PyObj × Heater)), kh ∈ regSet reg i hNew → kh.2 = hNew ∨ kh ∈ reg := by
  intro reg
  induction reg with
  | nil =>
    intro hm
    simp [regSet] at hm
    simp [hm]
  | cons a rest ih =>
    intro hm
    obtain ⟨k0, h0⟩ := a
    unfold regSet at hm
    by_cases hk : pyKeyEq k0 i = true
    · rw [if_pos hk] at hm
      rcases List.mem_cons.mp hm with rfl | hm2
      · exact Or.inl rfl
      · exact Or.inr (List.mem_cons_of_mem _ hm2)
    · rw [if_neg hk] at hm
      rcases List.mem_cons.mp hm with rfl | hm2
      · exact Or.inr (List.mem_cons_self _ _)
      · rcases ih hm2 with h1 | h2
        · exact Or.inl h1
        · exact Or.inr (List.mem_cons_of_mem _ h2)

/-- One discovery step never writes the declared `sw_version` field. -/
theorem discoverDevice_sw (reg reg2 : List (PyObj × Heater)) (d : PyObj)
    (hinv : ∀ kh ∈ reg, (Prod.snd kh).sw_version = PyObj.null)
    (hd : discoverDevice reg d = .ok reg2) :
    ∀ kh ∈ reg2, (Prod.snd kh).sw_version = PyObj.null := by
  cases d with
  | obj kvs =>
    simp only [discoverDevice] at hd
    by_cases hdt : pyEqNum (pyGetD kvs "deviceType") 4 = true
    case neg =>
      rw [if_neg hdt] at hd
      obtain rfl : reg = reg2 := by simpa using hd
      exact hinv
    case pos =>
      rw [if_pos hdt] at hd
      have hh0 : ((regGet reg (pyGetD kvs "realDeviceId")).getD {}).sw_version = PyObj.null := by
        cases hg : regGet reg (pyGetD kvs "realDeviceId") with
        | none => rfl
        | some h0 =>
          obtain ⟨k, hm⟩ := regGet_mem _ _ reg hg
          simpa using hinv (k, h0) hm
      by_cases htru : (pyGetD kvs "lastDataRefreshDate").truthy = true
      · rw [if_pos htru] at hd
        cases hT : pyStrptime19 (pyGetD kvs "lastDataRefreshDate") with
        | error e => simp [hT] at hd
        | ok t =>
          simp only [hT, Except.ok.injEq] at hd
          subst hd
          intro kh hm
          rcases regSet_mem _ _ kh reg hm with h1 | h2
          · rw [h1]
            simpa using hh0
          · exact hinv kh h2
      · rw [if_neg htru] at hd
        simp only [Except.ok.injEq] at hd
        subst hd
        intro kh hm
        rcases regSet_mem _ _ kh reg hm with h1 | h2
        · rw [h1]
          simpa using hh0
        · exact hinv kh h2
  | null => simp [discoverDevice] at hd
  | bool b => simp [discoverDevice] at hd
  | num q => simp [discoverDevice] at hd
  | str s => simp [discoverDevice] at hd
  | arr xs => simp [discoverDevice] at hd
  | time t => simp [discoverDevice] at hd

/-- The discovery loop preserves `sw_version = None` across the whole
registry. -/
theorem discoverFold_sw (ds : List PyObj) : ∀ (reg out : List (PyObj × Heater)),
    (∀ kh ∈ reg, (Prod.snd kh).sw_version = PyObj.null) →
    discoverFold reg ds = .ok out →
    ∀ kh ∈ out, (Prod.snd kh).sw_version = PyObj.null := by
  induction ds with
  | nil =>
    intro reg out hinv hf
    obtain rfl : reg = out := by simpa [discoverFold] using hf
    exact hinv
  | cons d rest ih =>
    intro reg out hinv hf
    unfold discoverFold at hf
    cases hdd : discoverDevice reg d with
    | error e => simp [hdd] at hf
    | ok reg2 =>
      simp only [hdd] at hf
      exact ih reg2 out (discoverDevice_sw reg reg2 d hinv hdd) hf

/-- A refresh, successful or not, never changes `sw_version`. -/
theorem heaterAfterFetch_sw (h : Heater) (rsp : PyObj) :
    (heaterAfterFetch h rsp).sw_version = h.sw_version := by
  unfold heaterAfterFetch
  cases hF : fetch_heater_data h rsp with
  | ok p =>
    obtain ⟨b, h'⟩ := p
    show h'.sw_version = h.sw_version
    cases b with
    | false =>
      obtain ⟨hnull, rfl⟩ := fetch_false_inv h h' rsp hF
      rfl
    | true =>
      obtain ⟨rawS, kvs, st, pcb, ed, en, hIdx, hLoads, hDS, hSt, hPcb, hEd, hEn, hout⟩ :=
        fetch_success_inv h h' rsp hF
      rcases hout with ⟨t, htru, hT, rfl⟩ | ⟨htru, rfl⟩ <;> rfl
  | error p =>
    obtain ⟨e, h'⟩ := p
    show h'.sw_version = h.sw_version
    exact (fetch_error_frame h h' rsp e hF).2.1

/-- The temperature command never changes `sw_version`. -/
theorem set_temperature_sw (h : Heater) (t : ℚ) (rsp : PyObj) (b : Bool) (h' : Heater)
    (hs : set_temperature h t rsp = .ok (b, h')) : h'.sw_version = h.sw_version := by
  unfold set_temperature at hs
  repeat' split at hs
  all_goals
    first
      | (simp only [Except.ok.injEq, Prod.mk.injEq] at hs
         obtain ⟨hb, hrec⟩ := hs
         subst hrec
         rfl)
      | exact absurd hs (by simp)

/-- The state command leaves the local heater record untouched in every
outcome. -/
theorem set_state_heater_eq (h : Heater) (s : ℚ) (rsp : PyObj) :
    (∀ b h', set_state h s rsp = .ok (b, h') → h' = h) ∧
    (∀ e h', set_state h s rsp = .error (e, h') → h' = h) := by
  constructor
  · intro b h' hs
    unfold set_state at hs
    repeat' split at hs
    all_goals simp_all
  · intro e h' hs
    unfold set_state at hs
    repeat' split at hs
    all_goals simp_all

/-! ## Claims -/

/-- C1: for every heater and every call to `fetch_heater_data` that
obtains a decodable status payload and applies it (the call returns
`True`), the heater's `energy_total` immediately afterwards equals
`energy_day + energy_night`, where those are the values read from the
payload's `EnergyD` and `EnergyN` fields; the total is recomputed from
them, never stored independently. -/
theorem C1_energy_total_recomputed (h h' : Heater) (rsp : PyObj)
    (hs : fetch_heater_data h rsp = .ok (true, h')) :
    ∃ kvs ed en,
      decodedStatus rsp = some kvs ∧
      pyFloat (pyGetD kvs "EnergyD") = .ok ed ∧
      pyFloat (pyGetD kvs "EnergyN") = .ok en ∧
      h'.energy_day = .num ed ∧ h'.energy_night = .num en ∧
      h'.energy_total = .num (ed + en) := by
  obtain ⟨rawS, kvs, st, pcb, ed, en, hIdx, hLoads, hDS, hSt, hPcb, hEd, hEn, hout⟩ :=
    fetch_success_inv h h' rsp hs
  refine ⟨kvs, ed, en, hDS, hEd, hEn, ?_⟩
  rcases hout with ⟨t, htru, hT, rfl⟩ | ⟨htru, rfl⟩ <;> exact ⟨rfl, rfl, rfl⟩

/-- C1 witness: a concrete successful refresh. -/
theorem C1_energy_total_recomputed_witness :
    fetch_heater_data {} okPayload = .ok (true, okHeater) ∧
    (∃ kvs ed en,
      decodedStatus okPayload = some kvs ∧
      pyFloat (pyGetD kvs "EnergyD") = .ok ed ∧
      pyFloat (pyGetD kvs "EnergyN") = .ok en ∧
      okHeater.energy_day = .num ed ∧ okHeater.energy_night = .num en ∧
      okHeater.energy_total = .num (ed + en)) :=
  ⟨by with_unfolding_all rfl,
   C1_energy_total_recomputed {} okHeater okPayload (by with_unfolding_all rfl)⟩

/-- C2 counterexample: a payload whose `LastRefreshDate` is present but
unparseable does not mark the heater unavailable; `strptime` raises a
`ValueError` that propagates and `available` keeps its prior value
(here `True`). -/
theorem C2_available_counterexample :
    fetch_heater_data { available := PyObj.bool true } badDatePayload =
      .error (.valueError, badDateHeater) ∧
    badDateHeater.available = PyObj.bool true ∧
    ¬ badDateHeater.available = PyObj.bool false := by
  refine ⟨by with_unfolding_all rfl, rfl, ?_⟩
  intro hc
  simp [badDateHeater] at hc

/-- C2 (amended): after a call that obtains a decodable payload and
returns `True`, `available` is `True` exactly when `LastRefreshDate` is
present (truthy) and its 19-character prefix parses, and `False`
otherwise; when the call raises (in particular on a present but
unparseable `LastRefreshDate`), `available` keeps its previous value
instead of being set to `False`. -/
theorem C2_available_amended :
    (∀ (h h' : Heater) (rsp : PyObj), fetch_heater_data h rsp = .ok (true, h') →
        h'.available = .bool (lastRefreshOk rsp)) ∧
    (∀ (h h' : Heater) (rsp : PyObj) (e : PyErr), fetch_heater_data h rsp = .error (e, h') →
        h'.available = h.available) := by
  constructor
  · intro h h' rsp hs
    obtain ⟨rawS, kvs, st, pcb, ed, en, hIdx, hLoads, hDS, hSt, hPcb, hEd, hEn, hout⟩ :=
      fetch_success_inv h h' rsp hs
    rcases hout with ⟨t, htru, hT, rfl⟩ | ⟨htru, rfl⟩
    · have : lastRefreshOk rsp = true := by
        unfold lastRefreshOk
        rw [hDS]
        simp [htru, hT]
      simp [this]
    · have : lastRefreshOk rsp = false := by
        unfold lastRefreshOk
        rw [hDS]
        simp [htru]
      simp [this]
  · intro h h' rsp e hs
    exact (fetch_error_frame h h' rsp e hs).2.2.2.2.2.2.2

/-- C2 witness: concrete successful and failing refreshes. -/
theorem C2_available_witness :
    (fetch_heater_data {} okPayload = .ok (true, okHeater) ∧
      okHeater.available = .bool (lastRefreshOk okPayload)) ∧
    (fetch_heater_data { available := PyObj.bool true } badDatePayload =
        .error (.valueError, badDateHeater) ∧
      badDateHeater.available = ({ available := PyObj.bool true } : Heater).available) :=
  ⟨⟨by with_unfolding_all rfl,
    C2_available_amended.1 {} okHeater okPayload (by with_unfolding_all rfl)⟩,
   ⟨by with_unfolding_all rfl,
    C2_available_amended.2 { available := PyObj.bool true } badDateHeater badDatePayload
      .valueError (by with_unfolding_all rfl)⟩⟩

/-- C3 counterexample: a decodable response without an `objectJson`
field makes `fetch_heater_data` raise a `KeyError` instead of returning
a failure boolean, so the claim that no exception ever reaches the
caller is false. -/
theorem C3_no_exception_counterexample :
    fetch_heater_data {} (.obj []) = .error (.keyError, {}) := by
  with_unfolding_all rfl

/-- C3 (amended): when the transport yields no decodable result the
function does return `False` without raising; but once a payload is
obtained, a missing `objectJson` key raises `KeyError` and a string
`objectJson` that is not valid JSON raises `JSONDecodeError`, and these
exceptions propagate to the caller (as do the `TypeError`/`ValueError`
of the later field conversions). -/
theorem C3_errors_amended :
    (∀ h : Heater, fetch_heater_data h .null =
        .ok (false, { h with available := .bool false })) ∧
    (∀ (h : Heater) (kvs : List (String × PyObj)), kvs.lookup "objectJson" = none →
        fetch_heater_data h (.obj kvs) = .error (.keyError, h)) ∧
    (∀ (h : Heater) (kvs : List (String × PyObj)) (s : String),
        kvs.lookup "objectJson" = some (.str s) → jsonParse s = none →
        fetch_heater_data h (.obj kvs) = .error (.jsonDecodeError, h)) := by
  refine ⟨fun h => rfl, ?_, ?_⟩
  · intro h kvs hlook
    simp [fetch_heater_data, pyIndex, hlook]
  · intro h kvs s hlook hparse
    simp [fetch_heater_data, pyIndex, pyJsonLoads, hlook, hparse]

/-- C3 witness: the two exception shapes at concrete inputs. -/
theorem C3_errors_witness :
    fetch_heater_data {} (.obj [("x", PyObj.num 1)]) = .error (.keyError, {}) ∧
    fetch_heater_data {} (.obj [("objectJson", PyObj.str "not json")]) =
      .error (.jsonDecodeError, {}) :=
  ⟨C3_errors_amended.2.1 {} [("x", PyObj.num 1)] (by with_unfolding_all rfl),
   C3_errors_amended.2.2 {} [("objectJson", PyObj.str "not json")] "not json"
     (by with_unfolding_all rfl) (by with_unfolding_all rfl)⟩

/-- C4: when the status request produces no decodable payload the
function returns `False` after setting only `available` to `False`
(every other field keeps its value); and in the bulk refresh each
registry entry is updated solely from its own response, so one
device's failure cannot prevent the others from being refreshed. -/
theorem C4_failure_frame :
    (∀ h : Heater, fetch_heater_data h .null =
        .ok (false, { h with available := .bool false })) ∧
    (∀ (reg : List (PyObj × Heater)) (dl : PyObj) (resp : PyObj → PyObj) (n : Nat),
        reg ≠ [] →
        (fetch_all_heaters reg dl resp).registry.get? n =
          (reg.get? n).map (fun kh => (kh.1, heaterAfterFetch kh.2 (resp kh.2.id)))) := by
  refine ⟨fun h => rfl, ?_⟩
  intro reg dl resp n hne
  have hE : reg.isEmpty = false := by
    cases reg with
    | nil => exact absurd rfl hne
    | cons a l => rfl
  unfold fetch_all_heaters
  rw [hE]
  simp [refreshAll]

/-- C4 witness: a three-heater registry in which device 2 fails while
devices 1 and 3 succeed. -/
theorem C4_failure_frame_witness :
    fetch_heater_data { name := PyObj.str "B" } .null =
      .ok (false, { name := PyObj.str "B", available := PyObj.bool false }) ∧
    (fetch_all_heaters c4reg .null c4resp).registry.get? 1 =
      (c4reg.get? 1).map (fun kh => (kh.1, heaterAfterFetch kh.2 (c4resp kh.2.id))) :=
  ⟨C4_failure_frame.1 { name := PyObj.str "B" },
   C4_failure_frame.2 c4reg .null c4resp 1 (by simp [c4reg])⟩

/-- C5: `connect` (through `_do_login`) with retry budget `r` succeeds
exactly when one of the first `r + 1` attempts receives a 302 redirect,
transport errors being retried while budget remains; two timeouts then
a redirect give success after 3 attempts with budget 2 and failure
after 2 attempts with budget 1; a non-redirect status fails immediately
with no retry. -/
theorem C5_login_retry :
    (∀ (r : Nat) (trace : List LoginOutcome),
      connect r trace = true ↔
        ∃ k, k ≤ r ∧ (∀ i, i < k → trace.get? i = some .transportErr) ∧
          trace.get? k = some (.response 302)) ∧
    _do_login 2 [.transportErr, .transportErr, .response 302] = (true, 3) ∧
    _do_login 1 [.transportErr, .transportErr, .response 302] = (false, 2) ∧
    (∀ (r s : Nat) (rest : List LoginOutcome), s ≠ 302 →
      _do_login r (.response s :: rest) = (false, 1)) := by
  refine ⟨fun r trace => doLogin_true_iff trace r, rfl, rfl, ?_⟩
  intro r s rest hs
  simp [_do_login, hs]

/-- C5 witness: the characterization and the no-retry clause at
concrete inputs. -/
theorem C5_login_retry_witness :
    connect 2 [.transportErr, .transportErr, .response 302] = true ∧
    _do_login 7 [.response 200] = (false, 1) :=
  ⟨by with_unfolding_all rfl, C5_login_retry.2.2.2 7 200 [] (by decide)⟩

/-- C6: a call to `fetch_all_heaters` made while the registry is
non-empty issues no discovery request and leaves the registry's key
sequence unchanged; repeating discovery against a populated registry is
a no-op. -/
theorem C6_discovery_once (reg : List (PyObj × Heater)) (dl : PyObj)
    (resp : PyObj → PyObj) (hne : reg ≠ []) :
    (fetch_all_heaters reg dl resp).discoveryCalls = 0 ∧
    (fetch_all_heaters reg dl resp).registry.map Prod.fst = reg.map Prod.fst := by
  have hE : reg.isEmpty = false := by
    cases reg with
    | nil => exact absurd rfl hne
    | cons a l => rfl
  unfold fetch_all_heaters
  rw [hE]
  simp [refreshAll, List.map_map, Function.comp_def]

/-- C6 witness: a populated singleton registry. -/
theorem C6_discovery_once_witness :
    (fetch_all_heaters [(PyObj.str "A", {})] (.arr []) (fun _ => .null)).discoveryCalls = 0 ∧
    (fetch_all_heaters [(PyObj.str "A", {})] (.arr []) (fun _ => .null)).registry.map Prod.fst =
      [(PyObj.str "A", ({} : Heater))].map Prod.fst :=
  C6_discovery_once [(PyObj.str "A", {})] (.arr []) (fun _ => .null) (by simp)

/-- C7: `set_temperature` returns success and stores the new target
exactly when the response is a JSON object whose `status` field is the
boolean `true`; for the enumerated other outcomes (no decodable
response, a `null` response, `status` false or absent) it returns
failure and leaves the heater record unchanged. -/
theorem C7_set_temperature_ack (h : Heater) (t : ℚ) (rsp : PyObj) :
    (∀ h', set_temperature h t rsp = .ok (true, h') ↔
        ∃ kvs, rsp = .obj kvs ∧ kvs.lookup "status" = some (.bool true) ∧
          h' = { h with set_temp := .num t }) ∧
    ((rsp = .null ∨ ∃ kvs, rsp = .obj kvs ∧ kvs.lookup "status" ≠ some (.bool true)) →
      set_temperature h t rsp = .ok (false, h)) := by
  constructor
  · intro h'
    constructor
    · intro hs
      unfold set_temperature at hs
      split at hs
      · rename_i htru
        split at hs
        · simp at hs
        · simp at hs
        · rename_i hcont
          split at hs
          · simp at hs
          · rename_i hidx
            simp only [Except.ok.injEq, Prod.mk.injEq, true_and] at hs
            obtain ⟨kvs, rfl, hlook⟩ := pyIndex_ok_inv rsp "status" (.bool true) hidx
            exact ⟨kvs, rfl, hlook, hs.symm⟩
          · simp at hs
      · simp at hs
    · rintro ⟨kvs, rfl, hlook, rfl⟩
      have hkne : kvs ≠ [] := by
        intro hk
        subst hk
        simp at hlook
      have hE : kvs.isEmpty = false := by
        cases kvs with
        | nil => exact absurd rfl hkne
        | cons a l => rfl
      simp [set_temperature, PyObj.truthy, hE, pyContains, hlook, pyIndex]
  · rintro (rfl | ⟨kvs, rfl, hlook⟩)
    · rfl
    · cases hE : kvs.isEmpty with
      | true => simp [set_temperature, PyObj.truthy, hE]
      | false =>
        cases hkv : kvs.lookup "status" with
        | none => simp [set_temperature, PyObj.truthy, hE, pyContains, hkv]
        | some v =>
          cases v with
          | bool b =>
            cases b with
            | true => exact absurd hkv hlook
            | false => simp [set_temperature, PyObj.truthy, hE, pyContains, pyIndex, hkv]
          | null => simp [set_temperature, PyObj.truthy, hE, pyContains, pyIndex, hkv]
          | num q => simp [set_temperature, PyObj.truthy, hE, pyContains, pyIndex, hkv]
          | str s2 => simp [set_temperature, PyObj.truthy, hE, pyContains, pyIndex, hkv]
          | arr xs => simp [set_temperature, PyObj.truthy, hE, pyContains, pyIndex, hkv]
          | obj kvs2 => simp [set_temperature, PyObj.truthy, hE, pyContains, pyIndex, hkv]
          | time t2 => simp [set_temperature, PyObj.truthy, hE, pyContains, pyIndex, hkv]

/-- C7 witness: acknowledged and rejected commands at concrete inputs. -/
theorem C7_set_temperature_ack_witness :
    set_temperature {} (43/2) (.obj [("status", PyObj.bool true)]) =
      .ok (true, { set_temp := PyObj.num (43/2) }) ∧
    set_temperature {} (43/2) (.obj [("status", PyObj.bool false)]) = .ok (false, {}) :=
  ⟨((C7_set_temperature_ack {} (43/2) (.obj [("status", PyObj.bool true)])).1
      { set_temp := PyObj.num (43/2) }).mpr
      ⟨[("status", PyObj.bool true)], rfl, by with_unfolding_all rfl,
       by with_unfolding_all rfl⟩,
   (C7_set_temperature_ack {} (43/2) (.obj [("status", PyObj.bool false)])).2
      (Or.inr ⟨[("status", PyObj.bool false)], rfl, by
        intro hc
        rw [show ([("status", PyObj.bool false)].lookup "status") =
            some (PyObj.bool false) from by with_unfolding_all rfl] at hc
        simp at hc⟩)⟩

/-- C8: `set_state` never modifies any field of the local heater record,
whatever the command outcome; only the returned boolean reflects it. -/
theorem C8_set_state_frame (h : Heater) (s : ℚ) (rsp : PyObj) :
    (∀ b h', set_state h s rsp = .ok (b, h') → h' = h) ∧
    (∀ e h', set_state h s rsp = .error (e, h') → h' = h) :=
  set_state_heater_eq h s rsp

/-- C8 witness: an acknowledged state command leaves the record equal. -/
theorem C8_set_state_frame_witness :
    set_state {} 1 (.obj [("status", PyObj.bool true)]) = .ok (true, {}) ∧
    ({} : Heater) = {} :=
  ⟨by with_unfolding_all rfl,
   (C8_set_state_frame {} 1 (.obj [("status", PyObj.bool true)])).1 true {}
     (by with_unfolding_all rfl)⟩

/-- C9: a `_post_request` that times out with remaining budget re-sends
through the GET path: the retry and all its successors are GET requests
with the same command and payload, and the first retry carries the
budget decremented by one. -/
theorem C9_post_retry_via_get (cmd : String) (p : PyObj) (r : Nat) (rest : List Outcome)
    (hr : 1 ≤ r) :
    _post_request cmd p r (.timeout :: rest) =
      ((_get_request cmd p (r - 1) rest).1,
        ⟨.post, cmd, p, r⟩ :: (_get_request cmd p (r - 1) rest).2) ∧
    (_get_request cmd p (r - 1) rest).2.head? = some ⟨.get, cmd, p, r - 1⟩ ∧
    (∀ req ∈ (_get_request cmd p (r - 1) rest).2,
      req.method = .get ∧ req.command = cmd ∧ req.payload = p) := by
  have hnr : ¬ r = 0 := by omega
  refine ⟨by simp [_post_request, hnr], ?_, ?_⟩
  · exact (getRequest_log cmd p rest (r - 1)).1
  · exact (getRequest_log cmd p rest (r - 1)).2

/-- C9 witness: a concrete timed-out POST. -/
theorem C9_post_retry_via_get_witness :
    _post_request "/api/panelconvector/setState" (.obj [("state", PyObj.num 1)]) 3
        (.timeout :: [.response "1"]) =
      ((_get_request "/api/panelconvector/setState" (.obj [("state", PyObj.num 1)]) 2
          [.response "1"]).1,
        ⟨.post, "/api/panelconvector/setState", .obj [("state", PyObj.num 1)], 3⟩ ::
          (_get_request "/api/panelconvector/setState" (.obj [("state", PyObj.num 1)]) 2
            [.response "1"]).2) ∧
    (_get_request "/api/panelconvector/setState" (.obj [("state", PyObj.num 1)]) 2
        [.response "1"]).2.head? =
      some ⟨.get, "/api/panelconvector/setState", .obj [("state", PyObj.num 1)], 2⟩ ∧
    (∀ req ∈ (_get_request "/api/panelconvector/setState" (.obj [("state", PyObj.num 1)]) 2
        [.response "1"]).2,
      req.method = .get ∧ req.command = "/api/panelconvector/setState" ∧
        req.payload = .obj [("state", PyObj.num 1)]) :=
  C9_post_retry_via_get "/api/panelconvector/setState" (.obj [("state", PyObj.num 1)]) 3
    [.response "1"] (by decide)

/-- C10: discovery assigns the dynamically created `swVersion`
attribute and never the declared `sw_version` field, which stays `None`
for every heater discovery produces; no other client operation
(refresh, temperature command, state command) ever sets it either. -/
theorem C10_sw_version_unset :
    (∀ (ds : List PyObj) (out : List (PyObj × Heater)),
      discoverFold [] ds = .ok out → ∀ kh ∈ out, (Prod.snd kh).sw_version = PyObj.null) ∧
    (∀ (h : Heater) (rsp : PyObj), (heaterAfterFetch h rsp).sw_version = h.sw_version) ∧
    (∀ (h : Heater) (t : ℚ) (rsp : PyObj) (b : Bool) (h' : Heater),
      set_temperature h t rsp = .ok (b, h') → h'.sw_version = h.sw_version) ∧
    (∀ (h : Heater) (s : ℚ) (rsp : PyObj) (b : Bool) (h' : Heater),
      set_state h s rsp = .ok (b, h') → h'.sw_version = h.sw_version) ∧
    (∀ kvs : List (String × PyObj), pyEqNum (pyGetD kvs "deviceType") 4 = true →
      (pyGetD kvs "lastDataRefreshDate").truthy = false →
      discoverDevice [] (.obj kvs) = .ok
        [(pyGetD kvs "realDeviceId",
          { hw_version := .str (pyStr (pyGetD kvs "hwVersion"))
            id := pyGetD kvs "id"
            available := .bool false
            name := pyGetD kvs "name"
            real_device_id := pyGetD kvs "realDeviceId"
            swVersion := pyGetD kvs "swVersion" })]) := by
  refine ⟨?_, ?_, ?_, ?_, ?_⟩
  · intro ds out hf
    exact discoverFold_sw ds [] out (by intro kh hm; simp at hm) hf
  · exact heaterAfterFetch_sw
  · exact set_temperature_sw
  · intro h s rsp b h' hs
    exact congrArg Heater.sw_version ((set_state_heater_eq h s rsp).1 b h' hs)
  · intro kvs hdt htru
    simp [discoverDevice, hdt, htru, regGet, regSet]

/-- C10 witness: a concrete discovery run and refresh. -/
theorem C10_sw_version_unset_witness :
    discoverFold [] [c10device] = .ok [(PyObj.str "AA", c10heater)] ∧
    (∀ kh ∈ [(PyObj.str "AA", c10heater)], (Prod.snd kh).sw_version = PyObj.null) ∧
    (heaterAfterFetch {} okPayload).sw_version = ({} : Heater).sw_version :=
  ⟨by with_unfolding_all rfl,
   C10_sw_version_unset.1 [c10device] [(PyObj.str "AA", c10heater)] (by with_unfolding_all rfl),
   C10_sw_version_unset.2.1 {} okPayload⟩

end Eldom
